import Mathlib

/-!
Shallow embedding of the RSVP reader's playback scheduler, timing engine,
stream consumer and control surface (the `ReaderProvider` store), together
with the producer-side record schema.  JavaScript numbers are modelled as
exact rationals (`ℚ`), `Math.round` as Mathlib's `round` (both round half
toward positive infinity), and the single-threaded callback loop as explicit
state-passing operations on a `ReaderState` record, with timer firings as
explicit events.  `performance.now()` timestamps are supplied as an explicit
`now : ℚ` argument to every operation that reads the clock.
-/

/-- A text chunk with a complexity score (`type Chunk` in the reader store). -/
structure Chunk where
  text : String
  complexity : ℚ
deriving DecidableEq

/-- The mutable timing configuration: `baseWPM` and the three punctuation
pause amounts, as held by the control surface. -/
structure TimingConfig where
  baseWPM : ℚ
  pCommaSemicolon : ℚ
  pColonDash : ℚ
  pSentenceEnd : ℚ
deriving DecidableEq

/-- JavaScript `\s` membership for the characters that can occur here
(space, tab, newline, carriage return, form feed, vertical tab). -/
def isJsSpace (c : Char) : Bool :=
  c = ' ' || c = '\t' || c = '\n' || c = '\r' || c = '\x0b' || c = '\x0c'

/-- Number of maximal runs of non-whitespace characters, i.e. the number of
matches of `/\S+/g` (leading/trailing trim does not change this count). -/
def countRuns : List Char → Bool → Nat
  | [], _ => 0
  | c :: rest, inWord =>
    if isJsSpace c then countRuns rest false
    else (if inWord then 0 else 1) + countRuns rest true

/-- `countWords` from the reader store:
`Math.max(1, text.trim().match(/\S+/g)?.length ?? 0)`. -/
def countWords (text : String) : Nat :=
  max 1 (countRuns text.data false)

/-- Whether the final character of `s` belongs to `cls` — the test
`/[…]$/.test(s)` for a character class of final punctuation. -/
def endsIn (s : String) (cls : List Char) : Bool :=
  match s.data.getLast? with
  | some c => cls.contains c
  | none => false

/-- `computeMs` from the reader store: base duration from `baseWPM` and the
word count, additive punctuation bonuses keyed on the final character,
complexity multiplier `0.6 + 1.2 * clamp(complexity, 0, 1)`, rounded and
clamped to `[50, 5000]` milliseconds. -/
def computeMs (cfg : TimingConfig) (c : Chunk) : ℤ :=
  let words : ℚ := (countWords c.text : ℚ)
  let baseMs : ℚ := 60000 / cfg.baseWPM * words
  let punctBonus : ℚ :=
    (if endsIn c.text [',', ';'] then cfg.pCommaSemicolon else 0) +
    (if endsIn c.text [':', '–', '—', '-'] then cfg.pColonDash else 0) +
    (if endsIn c.text ['.', '!', '?'] then cfg.pSentenceEnd else 0)
  let complexity : ℚ := max 0 (min 1 c.complexity)
  let complexityMultiplier : ℚ := 6/10 + 12/10 * complexity
  let ms : ℤ := round (baseMs * complexityMultiplier + punctBonus)
  max 50 (min 5000 ms)

/-- The running-average speed formula used by the advance step:
`Math.round(totalWords / Math.max(1, totalMs) * 60000)`. -/
def dynWPMOf (w : ℕ) (ms : ℤ) : ℤ :=
  round ((w : ℚ) / max 1 (ms : ℚ) * 60000)

/-- The instantaneous speed formula: `Math.round(words / ms * 60000)`. -/
def instWPMOf (w : ℕ) (ms : ℤ) : ℤ :=
  round ((w : ℚ) / (ms : ℚ) * 60000)

/-- The timing-calculator duration exactly as the specification words it:
`round((60000 / baseWPM) * max(1, words) * (0.6 + 1.2 * clamp(complexity,0,1))
 + punctuationBonus)` clamped to `[50, 5000]`, with the punctuation bonus
evaluated as independent additive rules on the trailing character. -/
def durationSpec (cfg : TimingConfig) (c : Chunk) : ℤ :=
  let words : ℚ := (countWords c.text : ℚ)
  let punctBonus : ℚ :=
    (if endsIn c.text [',', ';'] then cfg.pCommaSemicolon else 0) +
    (if endsIn c.text [':', '–', '—', '-'] then cfg.pColonDash else 0) +
    (if endsIn c.text ['.', '!', '?'] then cfg.pSentenceEnd else 0)
  let mult : ℚ := 6/10 + 12/10 * (max 0 (min 1 c.complexity))
  min 5000 (max 50 (round (60000 / cfg.baseWPM * words * mult + punctBonus)))

/-- The pending one-shot timer held in `timeoutRef`: either the advance
callback armed for the current chunk's duration, or the 50 ms retry poll of
the wait-for-buffer path. -/
inductive PendingTimer where
  | advance (ms : ℤ)
  | retry
deriving DecidableEq

/-- The default document text (`DEFAULT_DOC`). -/
def DEFAULT_DOC : String :=
  "Welcome to the AI-augmented RSVP Reader.\n\nPaste any article or text, then click Process. We will chunk the text and pace it for Rapid Serial Visual Presentation (RSVP), showing one unit at a time so you can focus your attention.\n\nBenefits:\n- Focused, distraction-free reading\n- Adaptive pacing (longer pauses at punctuation and for complex chunks)\n- Keyboard: Space (play/pause), prev/next, speed\n- Mouse: click/drag the progress bar to seek\n- Reset with New document to start over\n\nTip: You can adjust base WPM and punctuation pauses in Settings."

/-- The reader store's state: one field per `useState`/`useRef` pair of the
provider (ref/state mirrors collapsed into a single field).  `pending`
models `timeoutRef`, `currentStart` models `currentStartRef`, `inFlight`
models `abortRef` being non-null.  `history` is a ghost field recording each
buffer index published by the display branch of the loop, used to state the
scheduler's no-skip ordering property; no operation reads it. -/
structure ReaderState where
  documentText : String
  isProcessing : Bool
  chunks : List Chunk
  streamDone : Bool
  isPlaying : Bool
  index : ℕ
  currentChunk : Option Chunk
  loopStarted : Bool
  pending : Option PendingTimer
  currentStart : Option ℚ
  baseWPM : ℚ
  pCommaSemicolon : ℚ
  pColonDash : ℚ
  pSentenceEnd : ℚ
  instWPM : ℤ
  dynamicWPM : ℤ
  lastWords : ℕ
  lastMs : ℤ
  totalWords : ℕ
  totalMs : ℤ
  inFlight : Bool
  history : List ℕ
deriving DecidableEq

/-- The timing configuration currently held in the store's state. -/
def cfgOf (s : ReaderState) : TimingConfig :=
  ⟨s.baseWPM, s.pCommaSemicolon, s.pColonDash, s.pSentenceEnd⟩

/-- `clearTimers`: clear the pending timeout and the loop-started flag. -/
def clearTimers (s : ReaderState) : ReaderState :=
  { s with pending := none, loopStarted := false }

/-- `stopPlaybackInternal`: clear timers and stop playing. -/
def stopPlaybackInternal (s : ReaderState) : ReaderState :=
  { clearTimers s with isPlaying := false }

/-- `reset`: stop playback, abort any in-flight request, and clear the
buffer, cursor, displayed chunk, running totals and both speed metrics.
`currentStart` is (faithfully) not cleared. -/
def resetOp (s : ReaderState) : ReaderState :=
  { stopPlaybackInternal s with
      inFlight := false
      isProcessing := false
      streamDone := false
      documentText := DEFAULT_DOC
      chunks := []
      index := 0
      currentChunk := none
      totalWords := 0
      totalMs := 0
      lastMs := 0
      lastWords := 0
      dynamicWPM := 0
      instWPM := 0 }

/-- One run of the body of `loop` inside `scheduleNext`: display the chunk
at the cursor and arm the advance timer, or finish, or arm the 50 ms retry.
The source's bounds check `idx < buf.length` followed by `buf[idx]` is
modelled as the defined-ness of `buf[idx]?`. -/
def loopStep (now : ℚ) (s : ReaderState) : ReaderState :=
  if s.isPlaying = false then s
  else
    match s.chunks[s.index]? with
    | some c =>
      let words := countWords c.text
      let ms := computeMs (cfgOf s) c
      { s with
          lastWords := words
          lastMs := ms
          instWPM := instWPMOf words ms
          currentChunk := some c
          currentStart := some now
          pending := some (.advance ms)
          history := s.history ++ [s.index] }
    | none =>
      if s.streamDone then
        { s with isPlaying := false, currentChunk := none, loopStarted := false }
      else
        { s with pending := some .retry }

/-- `scheduleNext`: clear timers, mark the loop started, and run one loop
step immediately. -/
def scheduleNext (now : ℚ) (s : ReaderState) : ReaderState :=
  loopStep now { clearTimers s with loopStarted := true }

/-- `advanceFromCurrent`: increment the cursor, fold the last displayed
chunk's word count and duration into the running totals, recompute the
running-average metric, and continue scheduling. -/
def advanceFromCurrent (now : ℚ) (s : ReaderState) : ReaderState :=
  let tw := s.totalWords + s.lastWords
  let tm := s.totalMs + s.lastMs
  scheduleNext now
    { s with
        index := s.index + 1
        totalWords := tw
        totalMs := tm
        dynamicWPM := dynWPMOf tw tm }

/-- `adjustTimingForCurrent`: if playing with a recorded current chunk and
start timestamp, recompute the duration under the current config, cancel
the pending callback and re-arm the advance timer for the new full duration
counted from `now`. -/
def adjustTimingForCurrent (now : ℚ) (s : ReaderState) : ReaderState :=
  if s.isPlaying = false then s
  else
    match s.currentChunk, s.currentStart with
    | some c, some _ =>
      let words := countWords c.text
      let newMs := computeMs (cfgOf s) c
      { s with
          lastWords := words
          lastMs := newMs
          instWPM := instWPMOf words newMs
          pending := some (.advance newMs)
          currentStart := some now }
    | _, _ => s

/-- The body of the re-pacing `useEffect` that runs after a timing
parameter changes: adjust the current chunk's timing if a current chunk and
start timestamp are recorded, otherwise clear the timer and restart
scheduling. -/
def rePaceEffect (now : ℚ) (s : ReaderState) : ReaderState :=
  if s.isPlaying = false then s
  else
    match s.currentStart, s.currentChunk with
    | some _, some _ => adjustTimingForCurrent now s
    | _, _ => scheduleNext now { s with pending := none, loopStarted := false }

/-- Which timing-configuration field a setter call mutates. -/
inductive ConfigField where
  | wpm
  | commaSemi
  | colonDash
  | sentenceEnd
deriving DecidableEq

/-- Write one timing-configuration field. -/
def setConfigField (f : ConfigField) (v : ℚ) (s : ReaderState) : ReaderState :=
  match f with
  | .wpm => { s with baseWPM := v }
  | .commaSemi => { s with pCommaSemicolon := v }
  | .colonDash => { s with pColonDash := v }
  | .sentenceEnd => { s with pSentenceEnd := v }

/-- A timing-configuration change: the setter runs, then the re-pacing
effect fires. -/
def configChange (f : ConfigField) (v : ℚ) (now : ℚ) (s : ReaderState) : ReaderState :=
  rePaceEffect now (setConfigField f v s)

/-- First statement of `play`: if the cursor has reached the end of the
known (non-empty) buffer, rewind to index 0 and display the first chunk. -/
def playRewind (s : ReaderState) : ReaderState :=
  if 0 < s.chunks.length ∧ s.chunks.length ≤ s.index then
    { s with index := 0, currentChunk := s.chunks[0]? }
  else s

/-- Second statement of `play`: mark the player as playing. -/
def playMark (s : ReaderState) : ReaderState :=
  if s.isPlaying = false then { s with isPlaying := true } else s

/-- `play`: replay from the start if the cursor has reached the end of the
known buffer, mark playing, and start the loop if it is not running. -/
def play (now : ℚ) (s : ReaderState) : ReaderState :=
  let s2 := playMark (playRewind s)
  if s2.loopStarted = false then scheduleNext now s2 else s2

/-- `pause`: stop playback, retaining cursor and displayed chunk. -/
def pauseOp (s : ReaderState) : ReaderState :=
  stopPlaybackInternal s

/-- `Math.max(0, Math.min(len - 1, index))` as a buffer index. -/
def clampIdx (len : ℕ) (i : ℤ) : ℕ :=
  (max 0 (min ((len : ℤ) - 1) i)).toNat

/-- `seek(index)`: no-op on an empty buffer; otherwise clamp the target to
`[0, len - 1]`, update cursor and displayed chunk, and either restart the
loop (if playing) or just clear timers. -/
def seek (i : ℤ) (now : ℚ) (s : ReaderState) : ReaderState :=
  if s.chunks.length = 0 then s
  else
    let s1 := { s with
                  index := clampIdx s.chunks.length i
                  currentChunk := s.chunks[clampIdx s.chunks.length i]? }
    if s1.isPlaying then scheduleNext now s1 else clearTimers s1

/-- Appending one validated chunk to the buffer (the stream consumer's
`chunksRef.current.push(chunk)`). -/
def appendChunk (c : Chunk) (s : ReaderState) : ReaderState :=
  { s with chunks := s.chunks ++ [c] }

/-- Why the producer stream ended: normal completion, a request failure, or
a cooperative cancellation.  The consumer's `catch` swallows the last two,
so the `finally` block below is reached identically in all three cases. -/
inductive EndReason where
  | completed
  | failed
  | cancelled
deriving DecidableEq

/-- The `finally` block of `processDocument`: mark the stream done, stop
processing, and auto-play if any content was buffered. -/
def streamEnd (_r : EndReason) (now : ℚ) (s : ReaderState) : ReaderState :=
  let s1 := { s with streamDone := true, isProcessing := false }
  if 0 < s1.chunks.length then play now s1 else s1

/-- `cancelProcessing`: abort the in-flight request, if any, and clear the
processing flag. -/
def cancelProcessing (s : ReaderState) : ReaderState :=
  { s with inFlight := false, isProcessing := false }

/-- JavaScript `String.prototype.trim`: drop whitespace from both ends. -/
def jsTrim (s : String) : String :=
  ⟨((s.data.dropWhile fun c => isJsSpace c).reverse.dropWhile fun c =>
      isJsSpace c).reverse⟩

/-- The synchronous prefix of `processDocument(text)`: a no-op when the
trimmed text is empty, otherwise reset everything, record the document and
start a new in-flight request (no auto-play here). -/
def processDocumentStart (t : String) (s : ReaderState) : ReaderState :=
  let text := jsTrim t
  if text = "" then s
  else
    { resetOp s with documentText := text, isProcessing := true, inFlight := true }

/-- `setDocumentText` from the UI. -/
def setDocText (t : String) (s : ReaderState) : ReaderState :=
  { s with documentText := t }

/-- A pending timer fires: the advance callback runs `advanceFromCurrent`,
the retry callback re-runs the loop body.  Firing consumes the timer. -/
def fireTimer (now : ℚ) (s : ReaderState) : ReaderState :=
  match s.pending with
  | some (.advance _) => advanceFromCurrent now { s with pending := none }
  | some .retry => loopStep now { s with pending := none }
  | none => s

/-- The provider's initial state. -/
def initState : ReaderState where
  documentText := DEFAULT_DOC
  isProcessing := false
  chunks := []
  streamDone := false
  isPlaying := false
  index := 0
  currentChunk := none
  loopStarted := false
  pending := none
  currentStart := none
  baseWPM := 300
  pCommaSemicolon := 80
  pColonDash := 120
  pSentenceEnd := 220
  instWPM := 0
  dynamicWPM := 0
  lastWords := 0
  lastMs := 0
  totalWords := 0
  totalMs := 0
  inFlight := false
  history := []

/-- One externally triggered step of the system: a user operation, a chunk
arrival, a timer firing, a config change, or stream termination. -/
inductive SysStep : ReaderState → ReaderState → Prop where
  | play (now : ℚ) (s : ReaderState) : SysStep s (play now s)
  | pause (s : ReaderState) : SysStep s (pauseOp s)
  | seek (i : ℤ) (now : ℚ) (s : ReaderState) : SysStep s (seek i now s)
  | reset (s : ReaderState) : SysStep s (resetOp s)
  | append (c : Chunk) (s : ReaderState) : SysStep s (appendChunk c s)
  | fire (now : ℚ) (s : ReaderState) : SysStep s (fireTimer now s)
  | config (f : ConfigField) (v now : ℚ) (s : ReaderState) :
      SysStep s (configChange f v now s)
  | streamEnd (r : EndReason) (now : ℚ) (s : ReaderState) :
      SysStep s (streamEnd r now s)
  | processDoc (t : String) (s : ReaderState) : SysStep s (processDocumentStart t s)
  | cancel (s : ReaderState) : SysStep s (cancelProcessing s)
  | setDoc (t : String) (s : ReaderState) : SysStep s (setDocText t s)

/-- States reachable from the initial state by any sequence of steps. -/
inductive Reachable : ReaderState → Prop where
  | init : Reachable initState
  | step {s s' : ReaderState} : Reachable s → SysStep s s' → Reachable s'

/-! ### Basic preservation lemmas -/

theorem loopStep_same (now : ℚ) (s : ReaderState) :
    (loopStep now s).index = s.index ∧
    (loopStep now s).chunks = s.chunks ∧
    (loopStep now s).streamDone = s.streamDone ∧
    (loopStep now s).isProcessing = s.isProcessing ∧
    (loopStep now s).dynamicWPM = s.dynamicWPM ∧
    (loopStep now s).totalWords = s.totalWords ∧
    (loopStep now s).totalMs = s.totalMs := by
  unfold loopStep
  split
  · exact ⟨rfl, rfl, rfl, rfl, rfl, rfl, rfl⟩
  · split
    · exact ⟨rfl, rfl, rfl, rfl, rfl, rfl, rfl⟩
    · split
      · exact ⟨rfl, rfl, rfl, rfl, rfl, rfl, rfl⟩
      · exact ⟨rfl, rfl, rfl, rfl, rfl, rfl, rfl⟩

theorem scheduleNext_same (now : ℚ) (s : ReaderState) :
    (scheduleNext now s).index = s.index ∧
    (scheduleNext now s).chunks = s.chunks ∧
    (scheduleNext now s).streamDone = s.streamDone ∧
    (scheduleNext now s).isProcessing = s.isProcessing ∧
    (scheduleNext now s).dynamicWPM = s.dynamicWPM ∧
    (scheduleNext now s).totalWords = s.totalWords ∧
    (scheduleNext now s).totalMs = s.totalMs :=
  loopStep_same now _

/-! ### Evaluation lemmas for the timing formulas -/

theorem computeMs_hello : computeMs ⟨300, 80, 120, 220⟩ ⟨"Hello,", 0⟩ = 200 := by
  have hw : countWords "Hello," = 1 := by decide
  have h1 : endsIn "Hello," [',', ';'] = true := by decide
  have h2 : endsIn "Hello," [':', '–', '—', '-'] = false := by decide
  have h3 : endsIn "Hello," ['.', '!', '?'] = false := by decide
  unfold computeMs
  rw [hw, h1, h2, h3]
  norm_num [round_eq]

/-- C4: Timing Calculator correctness and bounds.  `computeMs` coincides
with the specification's closed-form duration (the clamp written in either
order), its value always lies in `[50, 5000]`, and on the config
`{baseWPM: 300, pauses: 80/120/220}` the chunk `{text: "Hello,",
complexity: 0}` yields 200 ms. -/
theorem computeMs_correct :
    (∀ (cfg : TimingConfig) (c : Chunk), computeMs cfg c = durationSpec cfg c) ∧
    (∀ (cfg : TimingConfig) (c : Chunk),
      50 ≤ computeMs cfg c ∧ computeMs cfg c ≤ 5000) ∧
    computeMs ⟨300, 80, 120, 220⟩ ⟨"Hello,", 0⟩ = 200 := by
  refine ⟨?_, ?_, computeMs_hello⟩
  · intro cfg c
    simp only [computeMs, durationSpec]
    omega
  · intro cfg c
    simp only [computeMs]
    omega

theorem computeMs_alpha300 : computeMs ⟨300, 80, 120, 220⟩ ⟨"alpha", 0⟩ = 120 := by
  have hw : countWords "alpha" = 1 := by decide
  have h1 : endsIn "alpha" [',', ';'] = false := by decide
  have h2 : endsIn "alpha" [':', '–', '—', '-'] = false := by decide
  have h3 : endsIn "alpha" ['.', '!', '?'] = false := by decide
  unfold computeMs
  rw [hw, h1, h2, h3]
  norm_num [round_eq]

theorem computeMs_alpha400 : computeMs ⟨400, 80, 120, 220⟩ ⟨"alpha", 0⟩ = 90 := by
  have hw : countWords "alpha" = 1 := by decide
  have h1 : endsIn "alpha" [',', ';'] = false := by decide
  have h2 : endsIn "alpha" [':', '–', '—', '-'] = false := by decide
  have h3 : endsIn "alpha" ['.', '!', '?'] = false := by decide
  unfold computeMs
  rw [hw, h1, h2, h3]
  norm_num [round_eq]

theorem computeMs_charlie400 : computeMs ⟨400, 80, 120, 220⟩ ⟨"charlie", 0⟩ = 90 := by
  have hw : countWords "charlie" = 1 := by decide
  have h1 : endsIn "charlie" [',', ';'] = false := by decide
  have h2 : endsIn "charlie" [':', '–', '—', '-'] = false := by decide
  have h3 : endsIn "charlie" ['.', '!', '?'] = false := by decide
  unfold computeMs
  rw [hw, h1, h2, h3]
  norm_num [round_eq]

theorem instWPMOf_1_120 : instWPMOf 1 120 = 500 := by
  unfold instWPMOf
  norm_num [round_eq]

theorem instWPMOf_1_90 : instWPMOf 1 90 = 667 := by
  unfold instWPMOf
  norm_num [round_eq]

theorem dynWPMOf_1_120 : dynWPMOf 1 120 = 500 := by
  unfold dynWPMOf
  norm_num [round_eq]

theorem dynWPMOf_2_210 : dynWPMOf 2 210 = 571 := by
  unfold dynWPMOf
  norm_num [round_eq]

/-! ### A concrete session in which the cursor escapes the buffer

One chunk has arrived, the stream is still open, the user starts playback,
the chunk's advance fires (cursor reaches `len(buffer)`, wait-for-buffer
retry armed), and then `baseWPM` is changed.  The re-pacing effect sees the
stale `currentChunk`/`currentStart` (neither is ever cleared on the retry
path) and re-arms an advance timer for the chunk the cursor has already
passed; when it fires, the cursor becomes `len(buffer) + 1`. -/

def chunkAlpha : Chunk := ⟨"alpha", 0⟩

def chunkBravo : Chunk := ⟨"bravo", 0⟩

def chunkCharlie : Chunk := ⟨"charlie", 0⟩

def openStreamState : ReaderState :=
  appendChunk chunkAlpha (processDocumentStart "doc" initState)

def bugS1 : ReaderState := play 0 openStreamState

def bugS2 : ReaderState := fireTimer 120 bugS1

def bugS3 : ReaderState := configChange .wpm 400 150 bugS2

def bugS4 : ReaderState := fireTimer 240 bugS3

def bugS5 : ReaderState := appendChunk chunkBravo bugS4

def bugS6 : ReaderState := appendChunk chunkCharlie bugS5

def bugS7 : ReaderState := fireTimer 300 bugS6

theorem openStreamState_eval :
    openStreamState =
      { initState with
          documentText := "doc"
          isProcessing := true
          inFlight := true
          chunks := [chunkAlpha] } := by
  have ht : jsTrim "doc" = "doc" := by decide
  simp [openStreamState, appendChunk, processDocumentStart, ht, resetOp,
    stopPlaybackInternal, clearTimers, initState]

theorem bugS1_eval :
    bugS1 =
      { initState with
          documentText := "doc"
          isProcessing := true
          inFlight := true
          chunks := [chunkAlpha]
          isPlaying := true
          loopStarted := true
          lastWords := 1
          lastMs := 120
          instWPM := 500
          currentChunk := some chunkAlpha
          currentStart := some 0
          pending := some (.advance 120)
          history := [0] } := by
  have hw : countWords "alpha" = 1 := by decide
  rw [bugS1, openStreamState_eval]
  simp [play, playRewind, playMark, scheduleNext, clearTimers, loopStep,
    cfgOf, initState, chunkAlpha, computeMs_alpha300, instWPMOf_1_120, hw]

theorem bugS2_eval :
    bugS2 =
      { initState with
          documentText := "doc"
          isProcessing := true
          inFlight := true
          chunks := [chunkAlpha]
          isPlaying := true
          loopStarted := true
          lastWords := 1
          lastMs := 120
          instWPM := 500
          currentChunk := some chunkAlpha
          currentStart := some 0
          pending := some .retry
          index := 1
          totalWords := 1
          totalMs := 120
          dynamicWPM := 500
          history := [0] } := by
  rw [bugS2, bugS1_eval]
  simp [fireTimer, advanceFromCurrent, scheduleNext, clearTimers, loopStep,
    cfgOf, initState, dynWPMOf_1_120]

theorem bugS3_eval :
    bugS3 =
      { initState with
          documentText := "doc"
          isProcessing := true
          inFlight := true
          chunks := [chunkAlpha]
          isPlaying := true
          loopStarted := true
          lastWords := 1
          lastMs := 90
          instWPM := 667
          currentChunk := some chunkAlpha
          currentStart := some 150
          pending := some (.advance 90)
          index := 1
          totalWords := 1
          totalMs := 120
          dynamicWPM := 500
          baseWPM := 400
          history := [0] } := by
  have hw : countWords "alpha" = 1 := by decide
  rw [bugS3, bugS2_eval]
  simp [configChange, setConfigField, rePaceEffect, adjustTimingForCurrent,
    cfgOf, initState, chunkAlpha, computeMs_alpha400, instWPMOf_1_90, hw]

theorem bugS4_eval :
    bugS4 =
      { initState with
          documentText := "doc"
          isProcessing := true
          inFlight := true
          chunks := [chunkAlpha]
          isPlaying := true
          loopStarted := true
          lastWords := 1
          lastMs := 90
          instWPM := 667
          currentChunk := some chunkAlpha
          currentStart := some 150
          pending := some .retry
          index := 2
          totalWords := 2
          totalMs := 210
          dynamicWPM := 571
          baseWPM := 400
          history := [0] } := by
  rw [bugS4, bugS3_eval]
  simp [fireTimer, advanceFromCurrent, scheduleNext, clearTimers, loopStep,
    cfgOf, initState, dynWPMOf_2_210]

theorem bugS7_eval :
    bugS7 =
      { initState with
          documentText := "doc"
          isProcessing := true
          inFlight := true
          chunks := [chunkAlpha, chunkBravo, chunkCharlie]
          isPlaying := true
          loopStarted := true
          lastWords := 1
          lastMs := 90
          instWPM := 667
          currentChunk := some chunkCharlie
          currentStart := some 300
          pending := some (.advance 90)
          index := 2
          totalWords := 2
          totalMs := 210
          dynamicWPM := 571
          baseWPM := 400
          history := [0, 2] } := by
  have hw : countWords "charlie" = 1 := by decide
  rw [bugS7, bugS6, bugS5, bugS4_eval]
  simp [appendChunk, fireTimer, loopStep, cfgOf, initState, chunkCharlie,
    computeMs_charlie400, instWPMOf_1_90, hw]

theorem reachable_bugS4 : Reachable bugS4 := by
  have r1 : Reachable (processDocumentStart "doc" initState) :=
    Reachable.step Reachable.init (SysStep.processDoc "doc" initState)
  have r2 : Reachable openStreamState :=
    Reachable.step r1 (SysStep.append chunkAlpha _)
  have r3 : Reachable bugS1 := Reachable.step r2 (SysStep.play 0 _)
  have r4 : Reachable bugS2 := Reachable.step r3 (SysStep.fire 120 _)
  have r5 : Reachable bugS3 :=
    Reachable.step r4 (SysStep.config ConfigField.wpm 400 150 _)
  exact Reachable.step r5 (SysStep.fire 240 _)

theorem reachable_bugS7 : Reachable bugS7 := by
  have r6 : Reachable bugS5 :=
    Reachable.step reachable_bugS4 (SysStep.append chunkBravo _)
  have r7 : Reachable bugS6 := Reachable.step r6 (SysStep.append chunkCharlie _)
  exact Reachable.step r7 (SysStep.fire 300 _)

/-- C1: the claimed range invariant `0 <= cursor <= len(buffer)` fails on
the code.  In a reachable session — one chunk buffered, stream still open,
user plays, the chunk's advance fires (cursor = len, retry armed), then
`baseWPM` changes — the re-pacing effect re-arms an advance timer for the
already-passed chunk, and its firing drives the cursor to
`len(buffer) + 1 = 2` while the buffer still has exactly one chunk. -/
theorem cursor_exceeds_buffer :
    Reachable bugS4 ∧ bugS4.chunks.length = 1 ∧ bugS4.index = 2 := by
  refine ⟨reachable_bugS4, ?_, ?_⟩
  · rw [bugS4_eval]
    rfl
  · rw [bugS4_eval]

/-- C2: the no-skip ordering guarantee fails on the code.  Continuing the
same reachable session: after the cursor has escaped to `len + 1`, two more
chunks arrive and the retry poll fires; the display branch publishes buffer
index 2 directly after index 0 — index 1 is never displayed although no
seek occurred (the ghost `history` field records exactly the indices
published by the display branch). -/
theorem scheduler_skips_index :
    Reachable bugS7 ∧ bugS7.chunks.length = 3 ∧ bugS7.history = [0, 2] := by
  refine ⟨reachable_bugS7, ?_, ?_⟩
  · rw [bugS7_eval]
    rfl
  · rw [bugS7_eval]

/-- C3: the live re-pacing claim fails on the code in its "no chunk is
actively timed" half.  At `bugS2` the scheduler is on the wait-for-buffer
path (retry poll pending, cursor = len, no advance callback), so a config
change should restart the loop step — which would arm only the retry poll,
as the last conjunct shows.  Instead the effect sees the stale
`currentChunk`/`currentStart` and arms an advance timer for the chunk the
cursor has already passed; firing it pushes the cursor past the buffer. -/
theorem repace_wait_path_arms_stale_advance :
    bugS2.pending = some PendingTimer.retry ∧
    bugS2.index = bugS2.chunks.length ∧
    bugS3 = configChange ConfigField.wpm 400 150 bugS2 ∧
    bugS3.pending = some (PendingTimer.advance 90) ∧
    bugS4 = fireTimer 240 bugS3 ∧
    bugS4.index = bugS4.chunks.length + 1 ∧
    (scheduleNext 150 (setConfigField ConfigField.wpm 400 bugS2)).pending =
      some PendingTimer.retry := by
  refine ⟨?_, ?_, rfl, ?_, rfl, ?_, ?_⟩
  · rw [bugS2_eval]
  · rw [bugS2_eval]
    rfl
  · rw [bugS3_eval]
  · rw [bugS4_eval]
    rfl
  · rw [bugS2_eval]
    simp [scheduleNext, setConfigField, clearTimers, loopStep, initState]

/-! ### Seek clamping (C5) and play-at-end (C6) -/

theorem clampIdx_lt (len : ℕ) (i : ℤ) (h : len ≠ 0) : clampIdx len i < len := by
  unfold clampIdx
  omega

theorem scheduleNext_display (now : ℚ) (s : ReaderState) (c : Chunk)
    (hp : s.isPlaying = true) (hc : s.chunks[s.index]? = some c) :
    scheduleNext now s =
      { s with
          pending := some (.advance (computeMs (cfgOf s) c))
          loopStarted := true
          lastWords := countWords c.text
          lastMs := computeMs (cfgOf s) c
          instWPM := instWPMOf (countWords c.text) (computeMs (cfgOf s) c)
          currentChunk := some c
          currentStart := some now
          history := s.history ++ [s.index] } := by
  simp only [scheduleNext, clearTimers, loopStep]
  simp [hp, hc, cfgOf]

theorem playRewind_index (s : ReaderState) :
    (playRewind s).index =
      if 0 < s.chunks.length ∧ s.chunks.length ≤ s.index then 0 else s.index := by
  unfold playRewind
  split <;> rfl

theorem playMark_index (s : ReaderState) : (playMark s).index = s.index := by
  unfold playMark
  split <;> rfl

theorem scheduleNext_currentChunk (now : ℚ) (t : ReaderState) (c : Chunk)
    (hp : t.isPlaying = true) (hc : t.chunks[t.index]? = some c) :
    (scheduleNext now t).currentChunk = some c := by
  simp only [scheduleNext, clearTimers, loopStep]
  simp [hp, hc]

theorem play_index (now : ℚ) (s : ReaderState) :
    (play now s).index = (playRewind s).index := by
  simp only [play]
  split
  · rw [(scheduleNext_same now _).1, playMark_index]
  · rw [playMark_index]

/-- C5: seek clamping.  On an empty buffer `seek` changes nothing at all;
otherwise it sets the cursor to `clamp(i, 0, len(buffer) - 1)` and the
displayed chunk to the buffer element at that index, for every integer
target (invalid targets are clamped, never an error). -/
theorem seek_clamps (s : ReaderState) (i : ℤ) (now : ℚ) :
    (s.chunks = [] → seek i now s = s) ∧
    (s.chunks ≠ [] →
      (seek i now s).index = clampIdx s.chunks.length i ∧
      (seek i now s).currentChunk = s.chunks[clampIdx s.chunks.length i]?) := by
  constructor
  · intro h
    unfold seek
    simp [h]
  · intro h
    have hlen : s.chunks.length ≠ 0 := by simpa using h
    have hlt : clampIdx s.chunks.length i < s.chunks.length := clampIdx_lt _ _ hlen
    have hget : s.chunks[clampIdx s.chunks.length i]? =
        some (s.chunks[clampIdx s.chunks.length i]) := List.getElem?_eq_getElem hlt
    simp only [seek]
    rw [if_neg hlen]
    split
    · next hp =>
      constructor
      · rw [(scheduleNext_same now _).1]
      · rw [hget]
        exact scheduleNext_currentChunk now _ _ hp hget
    · exact ⟨rfl, rfl⟩

/-- C6: replay-from-start.  Given the cursor range invariant
`cursor <= len(buffer)`, calling `play()` with `cursor == len(buffer)`
resets the cursor to 0, and calling it at any other cursor position leaves
the cursor unchanged. -/
theorem play_cursor (s : ReaderState) (now : ℚ)
    (h : s.index ≤ s.chunks.length) :
    (s.index = s.chunks.length → (play now s).index = 0) ∧
    (s.index ≠ s.chunks.length → (play now s).index = s.index) := by
  constructor
  · intro he
    rw [play_index, playRewind_index]
    by_cases h0 : 0 < s.chunks.length ∧ s.chunks.length ≤ s.index
    · rw [if_pos h0]
    · rw [if_neg h0]
      omega
  · intro hne
    have h0 : ¬(0 < s.chunks.length ∧ s.chunks.length ≤ s.index) := by omega
    rw [play_index, playRewind_index, if_neg h0]

def seekDemoState : ReaderState :=
  { initState with
      chunks := [⟨"one", 0⟩, ⟨"two", 0⟩, ⟨"three", 0⟩]
      streamDone := true }

/-- Witness for C5: `seek(10)` on a paused 3-chunk buffer clamps the cursor
to index 2 and displays the third chunk. -/
theorem seek_clamps_witness :
    seekDemoState.chunks ≠ [] ∧
    (seek 10 0 seekDemoState).index = 2 ∧
    (seek 10 0 seekDemoState).currentChunk = some ⟨"three", 0⟩ := by
  have h : seekDemoState.chunks ≠ [] := by decide
  have h2 := (seek_clamps seekDemoState 10 0).2 h
  refine ⟨h, ?_, ?_⟩
  · rw [h2.1]
    decide
  · rw [h2.2]
    decide

def playDemoState : ReaderState :=
  { initState with
      chunks := [⟨"solo", 0⟩]
      index := 1
      streamDone := true }

/-- Witness for C6: `play()` with the cursor at the end of a 1-chunk buffer
rewinds the cursor to 0. -/
theorem play_cursor_witness :
    playDemoState.index ≤ playDemoState.chunks.length ∧
    playDemoState.index = playDemoState.chunks.length ∧
    (play 0 playDemoState).index = 0 := by
  have h : playDemoState.index ≤ playDemoState.chunks.length := by decide
  exact ⟨h, by decide, (play_cursor playDemoState 0 h).1 (by decide)⟩

/-! ### Stream termination (C9) and document submission (C10) -/

theorem playRewind_same (s : ReaderState) :
    (playRewind s).chunks = s.chunks ∧
    (playRewind s).streamDone = s.streamDone ∧
    (playRewind s).isProcessing = s.isProcessing := by
  unfold playRewind
  split <;> exact ⟨rfl, rfl, rfl⟩

theorem playMark_same (s : ReaderState) :
    (playMark s).chunks = s.chunks ∧
    (playMark s).streamDone = s.streamDone ∧
    (playMark s).isProcessing = s.isProcessing := by
  unfold playMark
  split <;> exact ⟨rfl, rfl, rfl⟩

theorem playMark_isPlaying (s : ReaderState) : (playMark s).isPlaying = true := by
  unfold playMark
  split
  · rfl
  · next h => simpa using h

theorem scheduleNext_isPlaying (now : ℚ) (t : ReaderState) (c : Chunk)
    (hp : t.isPlaying = true) (hc : t.chunks[t.index]? = some c) :
    (scheduleNext now t).isPlaying = true := by
  simp only [scheduleNext, clearTimers, loopStep]
  simp [hp, hc]

theorem play_streamDone (now : ℚ) (s : ReaderState) :
    (play now s).streamDone = s.streamDone := by
  simp only [play]
  split
  · rw [(scheduleNext_same now _).2.2.1, (playMark_same _).2.1,
      (playRewind_same _).2.1]
  · rw [(playMark_same _).2.1, (playRewind_same _).2.1]

theorem play_isProcessing (now : ℚ) (s : ReaderState) :
    (play now s).isProcessing = s.isProcessing := by
  simp only [play]
  split
  · rw [(scheduleNext_same now _).2.2.2.1, (playMark_same _).2.2,
      (playRewind_same _).2.2]
  · rw [(playMark_same _).2.2, (playRewind_same _).2.2]

theorem play_isPlaying_of_nonempty (now : ℚ) (s : ReaderState)
    (h : s.chunks ≠ []) : (play now s).isPlaying = true := by
  have hlen : s.chunks.length ≠ 0 := by simpa using h
  have hidx : (playMark (playRewind s)).index <
      (playMark (playRewind s)).chunks.length := by
    rw [playMark_index, playRewind_index, (playMark_same _).1,
      (playRewind_same _).1]
    split <;> omega
  simp only [play]
  split
  · exact scheduleNext_isPlaying now _ _ (playMark_isPlaying _)
      (List.getElem?_eq_getElem hidx)
  · exact playMark_isPlaying _

/-- C9: failure treated as completion.  The `finally` block runs
identically whatever the reason the producer stream ended (completion,
failure, cancellation): it marks the stream done, stops processing, and —
when the buffer is non-empty — starts playback automatically.  No distinct
error state exists. -/
theorem stream_end_uniform (s : ReaderState) (now : ℚ) (r r' : EndReason) :
    streamEnd r now s = streamEnd r' now s ∧
    (streamEnd r now s).streamDone = true ∧
    (streamEnd r now s).isProcessing = false ∧
    (s.chunks ≠ [] → (streamEnd r now s).isPlaying = true) := by
  refine ⟨rfl, ?_, ?_, ?_⟩
  · simp only [streamEnd]
    split
    · rw [play_streamDone]
    · rfl
  · simp only [streamEnd]
    split
    · rw [play_isProcessing]
    · rfl
  · intro h
    simp only [streamEnd]
    split
    · exact play_isPlaying_of_nonempty now _ h
    · next hlen =>
      exfalso
      have : s.chunks.length ≠ 0 := by simpa using h
      omega

/-- Witness for C9: ending the stream by cancellation over a non-empty
buffer equals ending it by failure, and playback starts. -/
theorem stream_end_uniform_witness :
    seekDemoState.chunks ≠ [] ∧
    (streamEnd EndReason.cancelled 0 seekDemoState).isPlaying = true ∧
    streamEnd EndReason.cancelled 0 seekDemoState =
      streamEnd EndReason.failed 0 seekDemoState := by
  have h : seekDemoState.chunks ≠ [] := by decide
  have t := stream_end_uniform seekDemoState 0 EndReason.cancelled EndReason.failed
  exact ⟨h, t.2.2.2 h, t.1⟩

/-- C10: submitting a non-empty document first resets everything — the
buffer, cursor, displayed chunk, running totals, both speed metrics,
playback and any pending timer are cleared, and the in-flight request is
replaced — before the new request is issued, and playback is not started at
submission time. -/
theorem process_document_resets (s : ReaderState) (t : String)
    (h : jsTrim t ≠ "") :
    (processDocumentStart t s).chunks = [] ∧
    (processDocumentStart t s).index = 0 ∧
    (processDocumentStart t s).currentChunk = none ∧
    (processDocumentStart t s).totalWords = 0 ∧
    (processDocumentStart t s).totalMs = 0 ∧
    (processDocumentStart t s).dynamicWPM = 0 ∧
    (processDocumentStart t s).instWPM = 0 ∧
    (processDocumentStart t s).isPlaying = false ∧
    (processDocumentStart t s).pending = none ∧
    (processDocumentStart t s).isProcessing = true ∧
    (processDocumentStart t s).inFlight = true ∧
    (processDocumentStart t s).streamDone = false := by
  simp only [processDocumentStart]
  rw [if_neg h]
  exact ⟨rfl, rfl, rfl, rfl, rfl, rfl, rfl, rfl, rfl, rfl, rfl, rfl⟩

/-- Witness for C10: submitting a new document over the dirty mid-playback
state `bugS7` clears the old buffer, stops playback and starts processing. -/
theorem process_document_resets_witness :
    jsTrim "next doc" ≠ "" ∧
    (processDocumentStart "next doc" bugS7).chunks = [] ∧
    (processDocumentStart "next doc" bugS7).isPlaying = false ∧
    (processDocumentStart "next doc" bugS7).isProcessing = true := by
  have h : jsTrim "next doc" ≠ "" := by decide
  obtain ⟨h1, h2, h3, h4, h5, h6, h7, h8, h9, h10, h11, h12⟩ :=
    process_document_resets bugS7 "next doc" h
  exact ⟨h, h1, h8, h10⟩

/-! ### Stream-consumer acceptance vs the producer schema (C8) -/

/-- A parsed JSON value (the result of `JSON.parse` on one NDJSON line). -/
inductive Json where
  | str (s : String)
  | num (q : ℚ)
  | bool (b : Bool)
  | null
  | arr (elems : List Json)
  | obj (fields : List (String × Json))

/-- JavaScript property access `j.k`: the value of field `k` when `j` is an
object that has it, `undefined` (`none`) otherwise. -/
def getField : Json → String → Option Json
  | .obj fields, k => fields.lookup k
  | _, _ => none

/-- The stream consumer's acceptance test in `processDocument`:
`typeof chunk.text === 'string' && typeof chunk.complexity === 'number'`;
an accepted record is pushed onto the buffer unchanged. -/
def consumerAccept (j : Json) : Option Chunk :=
  match getField j "text", getField j "complexity" with
  | some (.str t), some (.num q) => some ⟨t, q⟩
  | _, _ => none

/-- `ChunkSchema` from `chunk-schema.ts`: `text` a string of length at
least 1, `complexity` a number in `[0, 1]`.  The API route runs
`safeParse` with this schema on every produced record before emitting it. -/
def chunkSchemaAccept (j : Json) : Option Chunk :=
  match getField j "text", getField j "complexity" with
  | some (.str t), some (.num q) =>
    if 1 ≤ t.length ∧ 0 ≤ q ∧ q ≤ 1 then some ⟨t, q⟩ else none
  | _, _ => none

/-- The data-model constraint the claim asserts of buffered chunks:
non-empty text and complexity within `[0, 1]`. -/
def validChunk (c : Chunk) : Prop :=
  1 ≤ c.text.length ∧ 0 ≤ c.complexity ∧ c.complexity ≤ 1

/-- A well-typed but invalid record: empty text and complexity 2. -/
def badLine : Json := .obj [("text", .str ""), ("complexity", .num 2)]

/-- C8 counterexample: the consumer boundary accepts the record
`{"text": "", "complexity": 2}` into the buffer even though it has empty
text and complexity outside `[0, 1]` — such records are not discarded at
the consumer boundary. -/
theorem consumer_accepts_invalid_record :
    consumerAccept badLine = some ⟨"", 2⟩ ∧ ¬ validChunk ⟨"", 2⟩ := by
  constructor
  · rfl
  · intro hv
    exact absurd hv.1 (by decide)

/-- C8 (amended): the consumer boundary checks exactly that `text` is a
string and `complexity` is a number; the non-emptiness and `[0, 1]`
constraints are enforced upstream by `ChunkSchema` in the API route, so
every schema-validated record is accepted by the consumer unchanged and is
valid. -/
theorem consumer_type_check_only :
    (∀ (j : Json) (c : Chunk),
      chunkSchemaAccept j = some c → consumerAccept j = some c ∧ validChunk c) ∧
    (∀ (j : Json) (c : Chunk),
      consumerAccept j = some c ↔
        getField j "text" = some (.str c.text) ∧
        getField j "complexity" = some (.num c.complexity)) := by
  constructor
  · intro j c h
    unfold chunkSchemaAccept at h
    split at h
    · next t q ht hq =>
      split_ifs at h with hP
      injection h with h'
      subst h'
      constructor
      · unfold consumerAccept
        rw [ht, hq]
      · exact hP
    · exact absurd h (by simp)
  · intro j c
    constructor
    · intro h
      unfold consumerAccept at h
      split at h
      · next t q ht hq =>
        injection h with h'
        subst h'
        exact ⟨ht, hq⟩
      · exact absurd h (by simp)
    · rintro ⟨ht, hq⟩
      unfold consumerAccept
      rw [ht, hq]

/-- A schema-valid record. -/
def goodLine : Json := .obj [("text", .str "Hi."), ("complexity", .num 1)]

/-- Witness for the amended C8: a schema-validated record is accepted by
the consumer and is valid. -/
theorem consumer_type_check_only_witness :
    chunkSchemaAccept goodLine = some ⟨"Hi.", 1⟩ ∧
    consumerAccept goodLine = some ⟨"Hi.", 1⟩ ∧ validChunk ⟨"Hi.", 1⟩ := by
  have h : chunkSchemaAccept goodLine = some ⟨"Hi.", 1⟩ := by decide
  have t2 := consumer_type_check_only.1 goodLine ⟨"Hi.", 1⟩ h
  exact ⟨h, t2.1, t2.2⟩

/-! ### The running-average metric (C7) -/

/-- The store's running-average invariant: `dynamicWPM` always equals the
advance-step formula applied to the running totals. -/
def metricInv (s : ReaderState) : Prop :=
  s.dynamicWPM = dynWPMOf s.totalWords s.totalMs

theorem dynWPMOf_zero : dynWPMOf 0 0 = 0 := by
  unfold dynWPMOf
  norm_num [round_eq]

theorem scheduleNext_metric (now : ℚ) {s : ReaderState} (h : metricInv s) :
    metricInv (scheduleNext now s) := by
  unfold metricInv at h ⊢
  obtain ⟨-, -, -, -, h1, h2, h3⟩ := scheduleNext_same now s
  rw [h1, h2, h3]
  exact h

theorem advance_metric (now : ℚ) (s : ReaderState) :
    metricInv (advanceFromCurrent now s) := by
  unfold metricInv
  simp only [advanceFromCurrent]
  obtain ⟨-, -, -, -, h1, h2, h3⟩ := scheduleNext_same now _
  rw [h1, h2, h3]

theorem adjust_same (now : ℚ) (s : ReaderState) :
    (adjustTimingForCurrent now s).dynamicWPM = s.dynamicWPM ∧
    (adjustTimingForCurrent now s).totalWords = s.totalWords ∧
    (adjustTimingForCurrent now s).totalMs = s.totalMs := by
  unfold adjustTimingForCurrent
  split
  · exact ⟨rfl, rfl, rfl⟩
  · split <;> exact ⟨rfl, rfl, rfl⟩

theorem adjust_metric (now : ℚ) {s : ReaderState} (h : metricInv s) :
    metricInv (adjustTimingForCurrent now s) := by
  unfold metricInv at h ⊢
  obtain ⟨h1, h2, h3⟩ := adjust_same now s
  rw [h1, h2, h3]
  exact h

theorem rePace_metric (now : ℚ) {s : ReaderState} (h : metricInv s) :
    metricInv (rePaceEffect now s) := by
  unfold rePaceEffect
  split
  · exact h
  · split
    · exact adjust_metric now h
    · exact scheduleNext_metric now h

theorem setConfigField_metric (f : ConfigField) (v : ℚ) {s : ReaderState}
    (h : metricInv s) : metricInv (setConfigField f v s) := by
  cases f <;> exact h

theorem playRewind_metric {s : ReaderState} (h : metricInv s) :
    metricInv (playRewind s) := by
  unfold playRewind
  split
  · exact h
  · exact h

theorem playMark_metric {s : ReaderState} (h : metricInv s) :
    metricInv (playMark s) := by
  unfold playMark
  split
  · exact h
  · exact h

theorem play_metric (now : ℚ) {s : ReaderState} (h : metricInv s) :
    metricInv (play now s) := by
  simp only [play]
  split
  · exact scheduleNext_metric now (playMark_metric (playRewind_metric h))
  · exact playMark_metric (playRewind_metric h)

theorem seek_metric (i : ℤ) (now : ℚ) {s : ReaderState} (h : metricInv s) :
    metricInv (seek i now s) := by
  simp only [seek]
  split
  · exact h
  · split
    · exact scheduleNext_metric now h
    · exact h

theorem resetOp_metric (s : ReaderState) : metricInv (resetOp s) := by
  unfold metricInv
  show (0 : ℤ) = dynWPMOf 0 0
  rw [dynWPMOf_zero]

theorem loopStep_metric (now : ℚ) {s : ReaderState} (h : metricInv s) :
    metricInv (loopStep now s) := by
  unfold metricInv at h ⊢
  obtain ⟨-, -, -, -, h1, h2, h3⟩ := loopStep_same now s
  rw [h1, h2, h3]
  exact h

theorem fireTimer_metric (now : ℚ) {s : ReaderState} (h : metricInv s) :
    metricInv (fireTimer now s) := by
  unfold fireTimer
  split
  · exact advance_metric now _
  · exact loopStep_metric now h
  · exact h

theorem streamEnd_metric (r : EndReason) (now : ℚ) {s : ReaderState}
    (h : metricInv s) : metricInv (streamEnd r now s) := by
  simp only [streamEnd]
  split
  · exact play_metric now h
  · exact h

theorem processDoc_metric (t : String) {s : ReaderState} (h : metricInv s) :
    metricInv (processDocumentStart t s) := by
  simp only [processDocumentStart]
  split
  · exact h
  · exact resetOp_metric s

theorem reachable_metric : ∀ s : ReaderState, Reachable s → metricInv s := by
  intro s h
  induction h with
  | init =>
    unfold metricInv
    show (0 : ℤ) = dynWPMOf 0 0
    rw [dynWPMOf_zero]
  | step _ hstep ih =>
    cases hstep with
    | play now s => exact play_metric now ih
    | pause s => exact ih
    | seek i now s => exact seek_metric i now ih
    | reset s => exact resetOp_metric s
    | append c s => exact ih
    | fire now s => exact fireTimer_metric now ih
    | config f v now s => exact rePace_metric now (setConfigField_metric f v ih)
    | streamEnd r now s => exact streamEnd_metric r now ih
    | processDoc t s => exact processDoc_metric t ih
    | cancel s => exact ih
    | setDoc t s => exact ih

/-- Scenario chunks engineered so the three one-word chunks take exactly
100, 200 and 300 ms under config `{baseWPM: 1000, pauses: 64/192/92}`. -/
def c7A : Chunk := ⟨"A,", 0⟩

def c7B : Chunk := ⟨"B.", 1⟩

def c7C : Chunk := ⟨"C:", 1⟩

def c7state : ReaderState :=
  { initState with
      chunks := [c7A, c7B, c7C]
      streamDone := true
      baseWPM := 1000
      pCommaSemicolon := 64
      pColonDash := 192
      pSentenceEnd := 92 }

def c7s1 : ReaderState := play 0 c7state

def c7s2 : ReaderState := fireTimer 100 c7s1

def c7s3 : ReaderState := fireTimer 300 c7s2

def c7final : ReaderState := fireTimer 600 c7s3

theorem computeMs_c7A : computeMs ⟨1000, 64, 192, 92⟩ ⟨"A,", 0⟩ = 100 := by
  have hw : countWords "A," = 1 := by decide
  have h1 : endsIn "A," [',', ';'] = true := by decide
  have h2 : endsIn "A," [':', '–', '—', '-'] = false := by decide
  have h3 : endsIn "A," ['.', '!', '?'] = false := by decide
  unfold computeMs
  rw [hw, h1, h2, h3]
  norm_num [round_eq]

theorem computeMs_c7B : computeMs ⟨1000, 64, 192, 92⟩ ⟨"B.", 1⟩ = 200 := by
  have hw : countWords "B." = 1 := by decide
  have h1 : endsIn "B." [',', ';'] = false := by decide
  have h2 : endsIn "B." [':', '–', '—', '-'] = false := by decide
  have h3 : endsIn "B." ['.', '!', '?'] = true := by decide
  unfold computeMs
  rw [hw, h1, h2, h3]
  norm_num [round_eq]

theorem computeMs_c7C : computeMs ⟨1000, 64, 192, 92⟩ ⟨"C:", 1⟩ = 300 := by
  have hw : countWords "C:" = 1 := by decide
  have h1 : endsIn "C:" [',', ';'] = false := by decide
  have h2 : endsIn "C:" [':', '–', '—', '-'] = true := by decide
  have h3 : endsIn "C:" ['.', '!', '?'] = false := by decide
  unfold computeMs
  rw [hw, h1, h2, h3]
  norm_num [round_eq]

theorem instWPMOf_1_100 : instWPMOf 1 100 = 600 := by
  unfold instWPMOf
  norm_num [round_eq]

theorem instWPMOf_1_200 : instWPMOf 1 200 = 300 := by
  unfold instWPMOf
  norm_num [round_eq]

theorem instWPMOf_1_300 : instWPMOf 1 300 = 200 := by
  unfold instWPMOf
  norm_num [round_eq]

theorem dynWPMOf_1_100 : dynWPMOf 1 100 = 600 := by
  unfold dynWPMOf
  norm_num [round_eq]

theorem dynWPMOf_2_300 : dynWPMOf 2 300 = 400 := by
  unfold dynWPMOf
  norm_num [round_eq]

theorem dynWPMOf_3_600 : dynWPMOf 3 600 = 300 := by
  unfold dynWPMOf
  norm_num [round_eq]

theorem c7s1_eval :
    c7s1 =
      { initState with
          chunks := [c7A, c7B, c7C]
          streamDone := true
          baseWPM := 1000
          pCommaSemicolon := 64
          pColonDash := 192
          pSentenceEnd := 92
          isPlaying := true
          loopStarted := true
          lastWords := 1
          lastMs := 100
          instWPM := 600
          currentChunk := some c7A
          currentStart := some 0
          pending := some (.advance 100)
          history := [0] } := by
  have hw : countWords "A," = 1 := by decide
  rw [c7s1, c7state]
  simp [play, playRewind, playMark, scheduleNext, clearTimers, loopStep,
    cfgOf, initState, c7A, computeMs_c7A, instWPMOf_1_100, hw]

theorem c7s2_eval :
    c7s2 =
      { initState with
          chunks := [c7A, c7B, c7C]
          streamDone := true
          baseWPM := 1000
          pCommaSemicolon := 64
          pColonDash := 192
          pSentenceEnd := 92
          isPlaying := true
          loopStarted := true
          index := 1
          totalWords := 1
          totalMs := 100
          dynamicWPM := 600
          lastWords := 1
          lastMs := 200
          instWPM := 300
          currentChunk := some c7B
          currentStart := some 100
          pending := some (.advance 200)
          history := [0, 1] } := by
  have hw : countWords "B." = 1 := by decide
  rw [c7s2, c7s1_eval]
  simp [fireTimer, advanceFromCurrent, scheduleNext, clearTimers, loopStep,
    cfgOf, initState, c7B, computeMs_c7B, instWPMOf_1_200, dynWPMOf_1_100, hw]

theorem c7s3_eval :
    c7s3 =
      { initState with
          chunks := [c7A, c7B, c7C]
          streamDone := true
          baseWPM := 1000
          pCommaSemicolon := 64
          pColonDash := 192
          pSentenceEnd := 92
          isPlaying := true
          loopStarted := true
          index := 2
          totalWords := 2
          totalMs := 300
          dynamicWPM := 400
          lastWords := 1
          lastMs := 300
          instWPM := 200
          currentChunk := some c7C
          currentStart := some 300
          pending := some (.advance 300)
          history := [0, 1, 2] } := by
  have hw : countWords "C:" = 1 := by decide
  rw [c7s3, c7s2_eval]
  simp [fireTimer, advanceFromCurrent, scheduleNext, clearTimers, loopStep,
    cfgOf, initState, c7C, computeMs_c7C, instWPMOf_1_300, dynWPMOf_2_300, hw]

theorem c7final_eval :
    c7final =
      { initState with
          chunks := [c7A, c7B, c7C]
          streamDone := true
          baseWPM := 1000
          pCommaSemicolon := 64
          pColonDash := 192
          pSentenceEnd := 92
          isPlaying := false
          loopStarted := false
          index := 3
          totalWords := 3
          totalMs := 600
          dynamicWPM := 300
          lastWords := 1
          lastMs := 300
          instWPM := 200
          currentChunk := none
          currentStart := some 300
          pending := none
          history := [0, 1, 2] } := by
  rw [c7final, c7s3_eval]
  simp [fireTimer, advanceFromCurrent, scheduleNext, clearTimers, loopStep,
    cfgOf, initState, dynWPMOf_3_600]

/-- C7: the running-average metric.  In every reachable state `dynamicWPM`
equals `round(cumulative_words / max(1, cumulative_ms) * 60000)`; re-pacing
and seeking never change it, only the advance step folds in the last
chunk's words and duration; `reset()` sets it to 0; and after displaying
three one-word chunks of 100, 200 and 300 ms the metric is 300. -/
theorem running_average_correct :
    (∀ s : ReaderState, Reachable s →
      s.dynamicWPM = dynWPMOf s.totalWords s.totalMs) ∧
    (∀ (now : ℚ) (s : ReaderState),
      (advanceFromCurrent now s).totalWords = s.totalWords + s.lastWords ∧
      (advanceFromCurrent now s).totalMs = s.totalMs + s.lastMs ∧
      (advanceFromCurrent now s).dynamicWPM =
        dynWPMOf (s.totalWords + s.lastWords) (s.totalMs + s.lastMs)) ∧
    (∀ (now : ℚ) (s : ReaderState),
      (adjustTimingForCurrent now s).dynamicWPM = s.dynamicWPM) ∧
    (∀ (i : ℤ) (now : ℚ) (s : ReaderState),
      (seek i now s).dynamicWPM = s.dynamicWPM) ∧
    (∀ s : ReaderState, (resetOp s).dynamicWPM = 0) ∧
    (c7final.totalWords = 3 ∧ c7final.totalMs = 600 ∧
      c7final.dynamicWPM = 300 ∧ c7final.history = [0, 1, 2]) := by
  refine ⟨reachable_metric, ?_, ?_, ?_, ?_, ?_⟩
  · intro now s
    simp only [advanceFromCurrent]
    obtain ⟨-, -, -, -, h1, h2, h3⟩ := scheduleNext_same now _
    rw [h1, h2, h3]
    exact ⟨rfl, rfl, rfl⟩
  · intro now s
    exact (adjust_same now s).1
  · intro i now s
    simp only [seek]
    split
    · rfl
    · split
      · rw [(scheduleNext_same now _).2.2.2.2.1]
      · rfl
  · intro s
    rfl
  · rw [c7final_eval]
    exact ⟨rfl, rfl, rfl, rfl⟩

/-- Witness for C7: the invariant instantiated at the initial state. -/
theorem running_average_correct_witness :
    initState.dynamicWPM = dynWPMOf initState.totalWords initState.totalMs :=
  running_average_correct.1 initState Reachable.init
